import Mathlib

/-!
Verification development for the career-chatbot tool-dispatch loop
(`src/career-chatbot/app.py`).

The Python module is shallowly embedded as follows.

* Outbound HTTP (`requests.post` to the Telegram webhook) is a parameter
  `sink : Sink` mapping the posted text to the HTTP response received, so a
  single run is deterministic in the sink.  Observable side effects
  (`print` lines and the HTTP post itself) are collected in a `List Effect`.
* The chat-completion provider (`self.client.chat.completions.create`) is a
  parameter `client : Client` mapping the message list sent to the response
  object (`finish_reason`, `message.content`, `message.tool_calls`).
* The `while not done` loop of `CareerChatBot.chat` has no bound in the
  source; it is embedded with an explicit fuel parameter, `Outcome.fuelOut`
  marking that the loop was still running when the fuel bound was reached
  (so `∀ fuel, outcome = fuelOut` is the nontermination statement).
* Python exceptions that can escape `handle_tool_calls` are modelled by
  `PyError`: `json.loads` raising `JSONDecodeError` on malformed argument
  text, the `TypeError` from calling the `None` returned by
  `globals().get` on an unresolvable tool name, and the `TypeError` from
  keyword-argument binding (missing required / unexpected keyword).
-/

/-- JSON scalar values appearing in tool-call argument payloads.  The two
registered tools and `notify` only ever receive text in normal use; `num`
is present because JSON argument payloads may carry numbers and Python
performs no type validation when binding them. -/
inductive JsonVal where
  | str (s : String)
  | num (n : Int)
deriving DecidableEq, Repr

/-- Python `str(v)` as used by f-string interpolation of an argument value. -/
def pyStr : JsonVal → String
  | JsonVal.str s => s
  | JsonVal.num n => toString n

/-- The `tool_call.function.arguments` field: a JSON text that either fails
to parse or parses to a key-value object (Python dict, keys distinct). -/
inductive Args where
  | malformed
  | parsed (kvs : List (String × JsonVal))
deriving DecidableEq, Repr

/-- Exceptions that can escape `handle_tool_calls` in the source:
`jsonDecodeError` from `json.loads`; `unknownTool` for the `TypeError`
raised when the `None` returned by `globals().get(tool_name)` is called;
`invalidArguments` for the `TypeError` raised by keyword-argument binding
(missing required argument or unexpected keyword). -/
inductive PyError where
  | jsonDecodeError
  | unknownTool (name : String)
  | invalidArguments (name : String)
deriving DecidableEq, Repr

/-- `json.loads(tool_call.function.arguments)`. -/
def jsonLoads : Args → Except PyError (List (String × JsonVal))
  | Args.malformed => Except.error PyError.jsonDecodeError
  | Args.parsed kvs => Except.ok kvs

/-- An HTTP response as seen by `requests.post`. -/
structure HttpResp where
  status : Nat
  body : String
deriving DecidableEq, Repr

/-- `response.ok` in `requests`: true exactly when the status is below 400. -/
def HttpResp.isOk (r : HttpResp) : Bool := r.status < 400

/-- The outbound notification boundary: the Telegram webhook, as a function
from the posted text to the HTTP response received. -/
def Sink : Type := String → HttpResp

/-- Observable side effects of a run: `print` output and outbound HTTP
posts (text posted and status received). -/
inductive Effect where
  | printed (s : String)
  | httpPost (text : String) (status : Nat)
deriving DecidableEq, Repr

/-- The fixed header `notify` prepends to every message it posts. -/
def notifyText (message : String) : String :=
  "🤖 **CAREER CHATBOT LOG** 🤖\n\n" ++ message

/-- `notify(message)`: posts the decorated message, prints an error block
(status code and body) when the response is not ok, and returns the status
code.  Total: every delivery outcome yields a return value. -/
def notify (sink : Sink) (message : String) : Nat × List Effect :=
  let resp := sink (notifyText message)
  let logs :=
    if resp.isOk then ([] : List Effect)
    else
      [Effect.printed "--- TELEGRAM NOTIFICATION ERROR ---",
       Effect.printed ("Status Code: " ++ toString resp.status),
       Effect.printed ("Response: " ++ resp.body),
       Effect.printed "-----------------------------------"]
  (resp.status, Effect.httpPost (notifyText message) resp.status :: logs)

/-- Results returned by the module-level callables that tool dispatch can
invoke: the dict `\x7b"recorded": "ok"\x7d` returned by both registered
tools, or the integer status code returned by `notify`. -/
inductive ToolRet where
  | recordedOk
  | status (n : Nat)
deriving DecidableEq, Repr

/-- `json.dumps(result)` for the values a dispatched callable can return. -/
def jsonDumpsRet : ToolRet → String
  | ToolRet.recordedOk => "\x7b\"recorded\": \"ok\"\x7d"
  | ToolRet.status n => toString n

/-- `record_user_details(email, name="Name not provided", notes="not provided")`. -/
def record_user_details (sink : Sink) (email name notes : JsonVal) :
    ToolRet × List Effect :=
  let r := notify sink
    ("New visitor ➜ " ++ pyStr name ++ ", Email: " ++ pyStr email ++
     ", Notes: " ++ pyStr notes)
  (ToolRet.recordedOk, r.snd)

/-- `record_unknown_question(question)`. -/
def record_unknown_question (sink : Sink) (question : JsonVal) :
    ToolRet × List Effect :=
  let r := notify sink ("Unknown question logged ➜ " ++ pyStr question)
  (ToolRet.recordedOk, r.snd)

/-- A parameter schema from the tool definition JSON: property name to
declared JSON type, plus the required-property list. -/
structure ParamSchema where
  properties : List (String × String)
  required : List String
deriving DecidableEq, Repr

/-- `record_user_details_json` (lines 48-60 of the source). -/
def record_user_details_json : ParamSchema :=
  { properties := [("email", "string"), ("name", "string"), ("notes", "string")],
    required := ["email"] }

/-- `record_unknown_question_json` (lines 62-72 of the source). -/
def record_unknown_question_json : ParamSchema :=
  { properties := [("question", "string")], required := ["question"] }

/-- The JSON type name of a value, for checking a payload against a schema. -/
def JsonVal.typeName : JsonVal → String
  | JsonVal.str _ => "string"
  | JsonVal.num _ => "number"

/-- Whether a parsed payload satisfies a declared parameter schema: every
required property present, and every supplied property declared with the
matching type. -/
def schemaSatisfied (schema : ParamSchema) (kvs : List (String × JsonVal)) : Bool :=
  schema.required.all (fun k => kvs.any (fun kv => kv.fst == k)) &&
  kvs.all (fun kv =>
    (schema.properties.any (fun p => p.fst == kv.fst && p.snd == kv.snd.typeName)))

/-- The `tools` list registered with the completion API (lines 74-77):
the names of the two declared function tools. -/
def tools : List String := ["record_user_details", "record_unknown_question"]

/-- The module-level function bindings a tool name can resolve to through
`globals().get(tool_name)`.  The module also binds non-function globals
(imported modules, the `CareerChatBot` class, data); those are not tool
handlers and, like `None`, fail when called with tool keyword arguments. -/
inductive PyFun where
  | fnNotify
  | fnRecordUserDetails
  | fnRecordUnknownQuestion
deriving DecidableEq, Repr

/-- `globals().get(tool_name)` restricted to the module-level functions. -/
def globalsGet (name : String) : Option PyFun :=
  if name = "notify" then some PyFun.fnNotify
  else if name = "record_user_details" then some PyFun.fnRecordUserDetails
  else if name = "record_unknown_question" then some PyFun.fnRecordUnknownQuestion
  else none

/-- First value bound to a key in a parsed payload (Python dict lookup;
keys of a parsed JSON object are distinct). -/
def lookupKey (kvs : List (String × JsonVal)) (k : String) : Option JsonVal :=
  (kvs.find? (fun kv => kv.fst == k)).map (fun kv => kv.snd)

/-- Whether a parsed payload supplies a key. -/
def hasKey (kvs : List (String × JsonVal)) (k : String) : Bool :=
  kvs.any (fun kv => kv.fst == k)

/-- Keyword binding of `**args` against
`record_user_details(email, name="Name not provided", notes="not provided")`:
every key must name a parameter, `email` must be present, the optional
parameters default. A violation is the `TypeError` modelled by
`PyError.invalidArguments`. -/
def bindRecordUserDetails (kvs : List (String × JsonVal)) :
    Except PyError (JsonVal × JsonVal × JsonVal) :=
  if kvs.all (fun kv => kv.fst == "email" || kv.fst == "name" || kv.fst == "notes") then
    match lookupKey kvs "email" with
    | some e =>
        Except.ok (e, (lookupKey kvs "name").getD (JsonVal.str "Name not provided"),
          (lookupKey kvs "notes").getD (JsonVal.str "not provided"))
    | none => Except.error (PyError.invalidArguments "record_user_details")
  else Except.error (PyError.invalidArguments "record_user_details")

/-- Keyword binding against `record_unknown_question(question)`. -/
def bindRecordUnknownQuestion (kvs : List (String × JsonVal)) :
    Except PyError JsonVal :=
  if kvs.all (fun kv => kv.fst == "question") then
    match lookupKey kvs "question" with
    | some q => Except.ok q
    | none => Except.error (PyError.invalidArguments "record_unknown_question")
  else Except.error (PyError.invalidArguments "record_unknown_question")

/-- Keyword binding against `notify(message)`. -/
def bindNotify (kvs : List (String × JsonVal)) : Except PyError JsonVal :=
  if kvs.all (fun kv => kv.fst == "message") then
    match lookupKey kvs "message" with
    | some m => Except.ok m
    | none => Except.error (PyError.invalidArguments "notify")
  else Except.error (PyError.invalidArguments "notify")

/-- `tool_fn(**args)`: bind the parsed payload to the resolved function and
run it. -/
def callPyFun (sink : Sink) (f : PyFun) (kvs : List (String × JsonVal)) :
    Except PyError (ToolRet × List Effect) :=
  match f with
  | PyFun.fnNotify =>
      (bindNotify kvs).map (fun m =>
        let r := notify sink (pyStr m)
        (ToolRet.status r.fst, r.snd))
  | PyFun.fnRecordUserDetails =>
      (bindRecordUserDetails kvs).map (fun ent =>
        record_user_details sink ent.fst ent.snd.fst ent.snd.snd)
  | PyFun.fnRecordUnknownQuestion =>
      (bindRecordUnknownQuestion kvs).map (fun q =>
        record_unknown_question sink q)

/-- One entry of `response.choices[0].message.tool_calls`. -/
structure ToolCall where
  id : String
  name : String
  arguments : Args
deriving DecidableEq, Repr

/-- A chat message as the source builds them: dicts with `role` and
`content`, plus `tool_calls` on assistant messages that request tools and
`tool_call_id` on tool-role result messages. -/
structure Msg where
  role : String
  content : Option String
  tool_calls : List ToolCall
  tool_call_id : Option String
deriving DecidableEq, Repr

/-- The system message opening every turn. -/
def sysMsg (c : String) : Msg := ⟨"system", some c, [], none⟩

/-- The new user message of a turn. -/
def userMsg (c : String) : Msg := ⟨"user", some c, [], none⟩

/-- The tool-role result message appended for one tool call. -/
def toolMsg (content : String) (callId : String) : Msg :=
  ⟨"tool", some content, [], some callId⟩

/-- The assistant message carrying a tool-call request, as appended back
into `messages`. -/
def asstMsg (content : Option String) (tcs : List ToolCall) : Msg :=
  ⟨"assistant", content, tcs, none⟩

/-- The loop body of `handle_tool_calls` for one tool call: print the tool
name, parse the arguments, resolve the name in module globals, call the
resolved function, and build the tool-role result message. -/
def dispatchOne (sink : Sink) (tc : ToolCall) : Except PyError Msg × List Effect :=
  let printEff := Effect.printed ("Tool called: " ++ tc.name)
  match jsonLoads tc.arguments with
  | Except.error e => (Except.error e, [printEff])
  | Except.ok kvs =>
    match globalsGet tc.name with
    | none => (Except.error (PyError.unknownTool tc.name), [printEff])
    | some f =>
      match callPyFun sink f kvs with
      | Except.error e => (Except.error e, [printEff])
      | Except.ok r => (Except.ok (toolMsg (jsonDumpsRet r.fst) tc.id), printEff :: r.snd)

/-- `CareerChatBot.handle_tool_calls`: process the tool calls in order,
collecting one tool-role result message per call; a raised exception
aborts the remainder of the list (effects already produced remain). -/
def handle_tool_calls (sink : Sink) : List ToolCall → Except PyError (List Msg) × List Effect
  | [] => (Except.ok [], [])
  | tc :: rest =>
    match dispatchOne sink tc with
    | (Except.error e, effs) => (Except.error e, effs)
    | (Except.ok m, effs) =>
      match handle_tool_calls sink rest with
      | (Except.error e, effs2) => (Except.error e, effs ++ effs2)
      | (Except.ok ms, effs2) => (Except.ok (m :: ms), effs ++ effs2)

/-- The completion response the loop inspects: `finish_reason`,
`message.content` and `message.tool_calls`. -/
structure ChatResponse where
  finish_reason : String
  content : Option String
  tool_calls : List ToolCall
deriving DecidableEq, Repr

/-- The chat-completion boundary: from the message list sent to the
response returned. -/
def Client : Type := List Msg → ChatResponse

/-- Possible ends of a turn: the returned content, a raised exception, or
fuel exhausted while the source loop would still be running. -/
inductive Outcome where
  | ok (content : Option String)
  | err (e : PyError)
  | fuelOut
deriving DecidableEq, Repr

/-- Full observable trace of one turn: how it ended, the side effects in
order, and every message list that was sent to the completion client. -/
structure Trace where
  outcome : Outcome
  effects : List Effect
  sent : List (List Msg)
deriving DecidableEq, Repr

/-- Prefix one loop iteration onto the trace of the remaining iterations. -/
def Trace.consStep (messages : List Msg) (effs : List Effect) (t : Trace) : Trace :=
  ⟨t.outcome, effs ++ t.effects, messages :: t.sent⟩

/-- The `while not done` loop of `CareerChatBot.chat`, with explicit fuel.
Each iteration sends `messages` to the client; on `finish_reason ==
"tool_calls"` it dispatches the requested calls, appends the assistant
message followed by the results, and repeats; otherwise it returns the
final content.  The source loop has no bound: fuel exhaustion is reported
as `Outcome.fuelOut`. -/
def chatLoop (client : Client) (sink : Sink) : Nat → List Msg → Trace
  | 0, _ => ⟨Outcome.fuelOut, [], []⟩
  | fuel + 1, messages =>
    if (client messages).finish_reason = "tool_calls" then
      match handle_tool_calls sink (client messages).tool_calls with
      | (Except.error e, effs) => ⟨Outcome.err e, effs, [messages]⟩
      | (Except.ok results, effs) =>
        Trace.consStep messages effs
          (chatLoop client sink fuel
            (messages ++ asstMsg (client messages).content (client messages).tool_calls :: results))
    else ⟨Outcome.ok (client messages).content, [], [messages]⟩

/-- The per-bot state set up by `CareerChatBot.__init__`. -/
structure BotState where
  name : String
  linkedin : String
  summary : String
deriving DecidableEq, Repr

/-- `CareerChatBot.__init__` after client setup: each knowledge loader
either yields its text or fails with file-not-found (`none`), in which
case the field is set to a placeholder string and a warning is printed;
initialization never aborts on a missing source file. -/
def initBot (pdfText : Option String) (summaryText : Option String) :
    BotState × List Effect :=
  let link :=
    match pdfText with
    | some s => (s, ([] : List Effect))
    | none => ("Error: LinkedIn PDF file not found. Check file path.",
        [Effect.printed "Error: Could not find me/Annabatula Sai Harsha CV Simple (1).pdf"])
  let summ :=
    match summaryText with
    | some s => (s, ([] : List Effect))
    | none => ("Error: Summary file not found. Check file path.",
        [Effect.printed "Error: Could not find me/new_summary.txt"])
  (⟨"A.S Harsha", link.fst, summ.fst⟩, link.snd ++ summ.snd)

/-- `CareerChatBot.system_prompt` (the source apostrophe in `name’s` is
written as U+2019 here). -/
def system_prompt (st : BotState) : String :=
  "\nYou are acting as " ++ st.name ++ ". Answer questions about " ++ st.name ++
  "’s career, education, experience, projects, \nand background using the summary and LinkedIn profile below.\n\n" ++
  "If you cannot answer something → call record_unknown_question.\n" ++
  "If the user shows interest → ask for email and call record_user_details.\n\n" ++
  "Be professional, friendly, and helpful.\n\n## Summary:\n" ++ st.summary ++
  "\n\n## LinkedIn:\n" ++ st.linkedin ++
  "\n\nStay in character as " ++ st.name ++ " throughout.\n"

/-- The message list `chat` builds before entering the loop:
`[\x7b"role": "system", ...\x7d] + history + [\x7b"role": "user", ...\x7d]`. -/
def initialMsgs (st : BotState) (message : String) (history : List Msg) : List Msg :=
  sysMsg (system_prompt st) :: history ++ [userMsg message]

/-- `CareerChatBot.chat`: build the initial message list and run the loop. -/
def chat (st : BotState) (client : Client) (sink : Sink) (fuel : Nat)
    (message : String) (history : List Msg) : Trace :=
  chatLoop client sink fuel (initialMsgs st message history)

/-! ### Derived observations and fixtures used by the theorems -/

/-- The texts of the outbound notification posts among a run's effects. -/
def postsOf : List Effect → List String
  | [] => []
  | Effect.httpPost s _ :: rest => s :: postsOf rest
  | Effect.printed _ :: rest => postsOf rest

/-- The required keyword parameter of each module-level callable. -/
def requiredKey : PyFun → String
  | PyFun.fnNotify => "message"
  | PyFun.fnRecordUserDetails => "email"
  | PyFun.fnRecordUnknownQuestion => "question"

/-- An argument payload that keyword binding must reject: either the JSON
text fails to parse, or the name resolves to a callable whose required
parameter the parsed payload does not supply. -/
def argsFatal (tc : ToolCall) : Prop :=
  tc.arguments = Args.malformed ∨
  ∃ kvs f, tc.arguments = Args.parsed kvs ∧ globalsGet tc.name = some f ∧
    hasKey kvs (requiredKey f) = false

/-- The Conversation invariant on one loop step: the later message list
extends the earlier one with the assistant message that requested tools
followed by exactly one tool-role result message per request, in request
order, each echoing its request's id. -/
def resultsMatch (a : Msg) (results : List Msg) : Prop :=
  a.role = "assistant" ∧ (∀ r ∈ results, r.role = "tool") ∧
  results.map Msg.tool_call_id = a.tool_calls.map (fun tc => some tc.id)

/-- The Conversation invariant over the sequence of message lists sent to
the completion client: each list sent after the first is the previous one
extended by an assistant message and its matching tool results. -/
def sentOk : List (List Msg) → Prop
  | m1 :: m2 :: rest =>
      (∃ a results, m2 = m1 ++ a :: results ∧ resultsMatch a results) ∧
      sentOk (m2 :: rest)
  | _ => True

/-- A client that requests the given single tool call on every turn. -/
def clientRequesting (tc : ToolCall) : Client :=
  fun _ => ⟨"tool_calls", none, [tc]⟩

/-- A bot state with minimal knowledge fields, for concrete runs. -/
def bot0 : BotState := ⟨"N", "L", "S"⟩

/-- A sink whose deliveries always succeed with status 200. -/
def sink200 : Sink := fun _ => ⟨200, "ok"⟩

/-- A sink whose deliveries always fail with status 500. -/
def sink500 : Sink := fun _ => ⟨500, "boom"⟩

/-- A client that immediately finalizes with content `"done"`. -/
def clientFinal : Client := fun _ => ⟨"stop", some "done", []⟩

/-- A `record_user_details` request supplying only the email. -/
def rudCall : ToolCall :=
  ⟨"call1", "record_user_details", Args.parsed [("email", JsonVal.str "a@b.com")]⟩

/-- A client that requests `rudCall` on the first call (the initial message
list has length 2 here) and finalizes with `"thanks"` afterwards. -/
def client6 : Client := fun ms =>
  if ms.length == 2 then ⟨"tool_calls", none, [rudCall]⟩
  else ⟨"stop", some "thanks", []⟩

/-- A `record_unknown_question` request with a well-formed payload. -/
def ruqCall : ToolCall :=
  ⟨"t1", "record_unknown_question", Args.parsed [("question", JsonVal.str "x")]⟩

/-- A model that perpetually requests tools: every response has
`finish_reason == "tool_calls"` and requests `ruqCall`. -/
def clientAlwaysTools : Client := fun _ => ⟨"tool_calls", none, [ruqCall]⟩

/-- A request naming `notify`: a module-level callable that is not one of
the two registered tools. -/
def notifyCall : ToolCall :=
  ⟨"n1", "notify", Args.parsed [("message", JsonVal.str "hello")]⟩

/-- A client that requests `notifyCall` first and finalizes with `"done"`. -/
def client9 : Client := fun ms =>
  if ms.length == 2 then ⟨"tool_calls", none, [notifyCall]⟩
  else ⟨"stop", some "done", []⟩

/-- A `record_user_details` request whose email is a number, violating the
declared `"type": "string"` of the schema. -/
def badTypeCall : ToolCall :=
  ⟨"b1", "record_user_details", Args.parsed [("email", JsonVal.num 123)]⟩

/-- A client that requests `badTypeCall` first and finalizes with `"fine"`. -/
def client4 : Client := fun ms =>
  if ms.length == 2 then ⟨"tool_calls", none, [badTypeCall]⟩
  else ⟨"stop", some "fine", []⟩

/-! ### A heap model of the Python lists handled by `chat`

`chat` receives the caller's `history` list by reference.  To state that it
never mutates that list, Python lists are modelled as cells of a store
indexed by allocation order; `list + list` allocates a fresh cell and
`.append`/`.extend` update one cell in place. -/

/-- A store of allocated Python lists of messages. -/
abbrev Store : Type := List (List Msg)

/-- The loop of `chat` on the store: `messages` lives in the cell
`msgsRef`; `messages.append(...)` / `messages.extend(results)` update that
cell in place.  No other cell is ever written. -/
def chatHeapLoop (client : Client) (sink : Sink) : Nat → Store → Nat → Store × Outcome
  | 0, store, _ => (store, Outcome.fuelOut)
  | fuel + 1, store, msgsRef =>
    let messages := (store[msgsRef]?).getD []
    if (client messages).finish_reason = "tool_calls" then
      match handle_tool_calls sink (client messages).tool_calls with
      | (Except.error e, _) => (store, Outcome.err e)
      | (Except.ok results, _) =>
        chatHeapLoop client sink fuel
          (store.set msgsRef
            (messages ++ asstMsg (client messages).content (client messages).tool_calls :: results))
          msgsRef
    else (store, Outcome.ok (client messages).content)

/-- `chat` on the store: `[system] + history + [user]` reads the history
cell and allocates a fresh cell for the per-turn `messages` list; the loop
then only ever updates that fresh cell. -/
def chatHeap (st : BotState) (client : Client) (sink : Sink) (fuel : Nat)
    (message : String) (store : Store) (histRef : Nat) : Store × Outcome :=
  let history := (store[histRef]?).getD []
  let messages := sysMsg (system_prompt st) :: history ++ [userMsg message]
  chatHeapLoop client sink fuel (store ++ [messages]) store.length

/-! ### Helper lemmas -/

lemma lookupKey_eq_none (kvs : List (String × JsonVal)) (k : String)
    (h : hasKey kvs k = false) : lookupKey kvs k = none := by
  simp only [lookupKey, Option.map_eq_none', List.find?_eq_none]
  intro x hx
  simp only [hasKey, List.any_eq_false] at h
  exact h x hx

lemma bindNotify_missing (kvs : List (String × JsonVal))
    (h : hasKey kvs "message" = false) :
    bindNotify kvs = Except.error (PyError.invalidArguments "notify") := by
  unfold bindNotify
  split
  · rw [lookupKey_eq_none kvs "message" h]
  · rfl

lemma bindRecordUserDetails_missing (kvs : List (String × JsonVal))
    (h : hasKey kvs "email" = false) :
    bindRecordUserDetails kvs = Except.error (PyError.invalidArguments "record_user_details") := by
  unfold bindRecordUserDetails
  split
  · rw [lookupKey_eq_none kvs "email" h]
  · rfl

lemma bindRecordUnknownQuestion_missing (kvs : List (String × JsonVal))
    (h : hasKey kvs "question" = false) :
    bindRecordUnknownQuestion kvs = Except.error (PyError.invalidArguments "record_unknown_question") := by
  unfold bindRecordUnknownQuestion
  split
  · rw [lookupKey_eq_none kvs "question" h]
  · rfl

lemma globalsGet_some_cases (name : String) (f : PyFun) (h : globalsGet name = some f) :
    (f = PyFun.fnNotify ∧ name = "notify") ∨
    (f = PyFun.fnRecordUserDetails ∧ name = "record_user_details") ∨
    (f = PyFun.fnRecordUnknownQuestion ∧ name = "record_unknown_question") := by
  unfold globalsGet at h
  split_ifs at h with h1 h2 h3
  · cases h
    exact Or.inl ⟨rfl, h1⟩
  · cases h
    exact Or.inr (Or.inl ⟨rfl, h2⟩)
  · cases h
    exact Or.inr (Or.inr ⟨rfl, h3⟩)

lemma chatLoop_alwaysTools (sink : Sink) :
    ∀ fuel msgs, (chatLoop clientAlwaysTools sink fuel msgs).outcome = Outcome.fuelOut := by
  intro fuel
  induction fuel with
  | zero => intro msgs; rfl
  | succ n ih =>
    intro msgs
    simp [chatLoop, clientAlwaysTools, handle_tool_calls, dispatchOne, ruqCall, jsonLoads,
      globalsGet, callPyFun, bindRecordUnknownQuestion, lookupKey, record_unknown_question,
      Trace.consStep, Except.map, ih]

/-! ### Claim theorems -/

/-- C1: the spec requires an enforced maximum iteration count with a
distinct tool-loop-exceeded outcome, but the source `while not done` loop
has no bound: against a client that always returns `finish_reason ==
"tool_calls"` (here perpetually requesting `record_unknown_question`),
the loop is still running when any fuel bound whatsoever is reached — it
never terminates, with no tool-loop-exceeded outcome. -/
theorem c1_unbounded_tool_loop (st : BotState) (sink : Sink) (fuel : Nat)
    (message : String) (history : List Msg) :
    (chat st clientAlwaysTools sink fuel message history).outcome = Outcome.fuelOut :=
  chatLoop_alwaysTools sink fuel (initialMsgs st message history)

/-- C3 counterexample: `"notify"` is not in the registered `tools` list,
yet a turn whose first response requests tool name `"notify"` does not
fail: dispatch resolves the name in module globals, the turn completes
with the final content, and the completion client is called a second
time. -/
theorem c3_counterexample :
    tools.contains "notify" = false ∧
    (chat bot0 client9 sink200 2 "hi" []).outcome = Outcome.ok (some "done") ∧
    (chat bot0 client9 sink200 2 "hi" []).sent.length = 2 :=
  ⟨rfl, rfl, rfl⟩

/-- C3 amended: if a ToolCallRequest names a tool that does not resolve to
any module-level callable (e.g. `"delete_everything"`), the turn fails
with the unknown-tool error (the `TypeError` from calling `None`), the
request is not silently skipped, and the completion client is not called
again within that turn (exactly one message list was sent). -/
theorem c3_unresolvable_name_fatal (st : BotState) (sink : Sink) (fuel : Nat)
    (message : String) (history : List Msg) (name cid : String)
    (kvs : List (String × JsonVal)) (h : globalsGet name = none) :
    chat st (clientRequesting ⟨cid, name, Args.parsed kvs⟩) sink (fuel + 1) message history =
      ⟨Outcome.err (PyError.unknownTool name), [Effect.printed ("Tool called: " ++ name)],
       [initialMsgs st message history]⟩ := by
  simp [chat, chatLoop, clientRequesting, handle_tool_calls, dispatchOne, jsonLoads, h]

/-- C3 amended witness: the `"delete_everything"` instance. -/
theorem c3_unresolvable_name_fatal_witness :
    globalsGet "delete_everything" = none ∧
    chat bot0 (clientRequesting ⟨"d1", "delete_everything", Args.parsed []⟩) sink200 1 "hi" [] =
      ⟨Outcome.err (PyError.unknownTool "delete_everything"),
       [Effect.printed ("Tool called: " ++ "delete_everything")],
       [initialMsgs bot0 "hi" []]⟩ :=
  ⟨by decide,
   c3_unresolvable_name_fatal bot0 sink200 0 "hi" [] "delete_everything" "d1" [] (by decide)⟩

/-- C4 counterexample: the payload `email ↦ 123` violates the declared
schema of `record_user_details` (`email` is declared `"string"`), yet
dispatch does not fail with an invalid-arguments error: the handler runs,
the notification goes out with `Email: 123`, and the turn completes
normally with a second model call. -/
theorem c4_counterexample :
    schemaSatisfied record_user_details_json [("email", JsonVal.num 123)] = false ∧
    (chat bot0 client4 sink200 2 "hi" []).outcome = Outcome.ok (some "fine") ∧
    (chat bot0 client4 sink200 2 "hi" []).sent.length = 2 ∧
    postsOf (chat bot0 client4 sink200 2 "hi" []).effects =
      [notifyText "New visitor ➜ Name not provided, Email: 123, Notes: not provided"] :=
  ⟨rfl, rfl, rfl, rfl⟩

/-- C4 amended: if the arguments payload fails to parse as JSON, or omits
the resolved callable's required parameter, dispatch fails with the
corresponding error (`JSONDecodeError`, resp. the keyword-binding
`TypeError`), fatally for the turn: the turn ends in that error and the
completion client is not called again.  (Wrong-typed values are not
validated: see the counterexample.) -/
theorem c4_bad_payload_fatal (st : BotState) (sink : Sink) (fuel : Nat)
    (message : String) (history : List Msg) (tc : ToolCall) (h : argsFatal tc) :
    ∃ e, (e = PyError.jsonDecodeError ∨ e = PyError.invalidArguments tc.name) ∧
      chat st (clientRequesting tc) sink (fuel + 1) message history =
        ⟨Outcome.err e, [Effect.printed ("Tool called: " ++ tc.name)],
         [initialMsgs st message history]⟩ := by
  rcases h with hm | ⟨kvs, f, hargs, hg, hmiss⟩
  · refine ⟨PyError.jsonDecodeError, Or.inl rfl, ?_⟩
    simp [chat, chatLoop, clientRequesting, handle_tool_calls, dispatchOne, jsonLoads, hm]
  · refine ⟨PyError.invalidArguments tc.name, Or.inr rfl, ?_⟩
    rcases globalsGet_some_cases _ _ hg with ⟨hf, hn⟩ | ⟨hf, hn⟩ | ⟨hf, hn⟩ <;> subst hf
    · have hb := bindNotify_missing kvs hmiss
      simp [chat, chatLoop, clientRequesting, handle_tool_calls, dispatchOne, jsonLoads,
        hargs, globalsGet, callPyFun, hb, hn, Except.map]
    · have hb := bindRecordUserDetails_missing kvs hmiss
      simp [chat, chatLoop, clientRequesting, handle_tool_calls, dispatchOne, jsonLoads,
        hargs, globalsGet, callPyFun, hb, hn, Except.map]
    · have hb := bindRecordUnknownQuestion_missing kvs hmiss
      simp [chat, chatLoop, clientRequesting, handle_tool_calls, dispatchOne, jsonLoads,
        hargs, globalsGet, callPyFun, hb, hn, Except.map]

/-- C4 amended witness: `record_user_details` requested with an empty
payload (missing required `email`). -/
theorem c4_bad_payload_fatal_witness :
    ∃ e, (e = PyError.jsonDecodeError ∨
          e = PyError.invalidArguments (ToolCall.mk "w1" "record_user_details" (Args.parsed [])).name) ∧
      chat bot0 (clientRequesting ⟨"w1", "record_user_details", Args.parsed []⟩) sink200 1 "hi" [] =
        ⟨Outcome.err e,
         [Effect.printed ("Tool called: " ++ (ToolCall.mk "w1" "record_user_details" (Args.parsed [])).name)],
         [initialMsgs bot0 "hi" []]⟩ :=
  c4_bad_payload_fatal bot0 sink200 0 "hi" [] ⟨"w1", "record_user_details", Args.parsed []⟩
    (Or.inr ⟨[], PyFun.fnRecordUserDetails, rfl, by decide, by decide⟩)

/-- C5: if the completion client returns a final message on the first call
(finish reason other than `"tool_calls"`), `chat` returns that message's
content unchanged, produces no side effects (so no tool handler was
invoked), and sends exactly the initial message list once. -/
theorem c5_final_first_call (st : BotState) (client : Client) (sink : Sink) (fuel : Nat)
    (message : String) (history : List Msg)
    (h : (client (initialMsgs st message history)).finish_reason ≠ "tool_calls") :
    chat st client sink (fuel + 1) message history =
      ⟨Outcome.ok ((client (initialMsgs st message history)).content), [],
       [initialMsgs st message history]⟩ := by
  simp [chat, chatLoop, h]

/-- C5 witness: a client that finalizes immediately with `"done"`. -/
theorem c5_final_first_call_witness :
    (clientFinal (initialMsgs bot0 "hi" [])).finish_reason ≠ "tool_calls" ∧
    chat bot0 clientFinal sink200 1 "hi" [] =
      ⟨Outcome.ok (some "done"), [], [initialMsgs bot0 "hi" []]⟩ :=
  ⟨by decide, c5_final_first_call bot0 clientFinal sink200 0 "hi" [] (by decide)⟩

/-- C6: for a response requesting `record_user_details` with only
`email = "a@b.com"`: exactly one notification is posted (whatever the
delivery outcome), its text shows `name` and `notes` bound to their
declared defaults and contains the email, exactly one tool-role result
with payload `recorded: ok` is appended for the request, and the turn
completes. -/
theorem c6_record_user_details_defaults (sink : Sink) :
    postsOf (chat bot0 client6 sink 2 "hi" []).effects =
      [notifyText "New visitor ➜ Name not provided, Email: a@b.com, Notes: not provided"] ∧
    (∃ pre post,
      notifyText "New visitor ➜ Name not provided, Email: a@b.com, Notes: not provided" =
        pre ++ "a@b.com" ++ post) ∧
    (chat bot0 client6 sink 2 "hi" []).sent =
      [initialMsgs bot0 "hi" [],
       initialMsgs bot0 "hi" [] ++
         [asstMsg none [rudCall], toolMsg "\x7b\"recorded\": \"ok\"\x7d" "call1"]] ∧
    (chat bot0 client6 sink 2 "hi" []).outcome = Outcome.ok (some "thanks") := by
  refine ⟨?_,
    ⟨"🤖 **CAREER CHATBOT LOG** 🤖\n\nNew visitor ➜ Name not provided, Email: ",
     ", Notes: not provided", by decide⟩, ?_, ?_⟩
  · simp [chat, chatLoop, client6, initialMsgs, handle_tool_calls, dispatchOne, rudCall,
      jsonLoads, globalsGet, callPyFun, bindRecordUserDetails, lookupKey, record_user_details,
      notify, Trace.consStep, postsOf, Except.map, pyStr]
    cases h : (sink (notifyText "New visitor ➜ Name not provided, Email: a@b.com, Notes: not provided")).isOk <;>
      simp [h, postsOf]
  · rfl
  · rfl

/-- C9: tool dispatch resolves names in the module's global namespace, not
against the registered tool list: `"notify"` is not one of the two
registered tools, yet a request naming it executes the module-level
`notify` function with the request's arguments (the notification is
posted with the supplied message) and its integer return value is folded
back as the tool result. -/
theorem c9_globals_dispatch_executes_notify :
    tools.contains "notify" = false ∧
    (chat bot0 client9 sink200 2 "hi" []).effects =
      [Effect.printed "Tool called: notify", Effect.httpPost (notifyText "hello") 200] ∧
    (chat bot0 client9 sink200 2 "hi" []).sent =
      [initialMsgs bot0 "hi" [],
       initialMsgs bot0 "hi" [] ++ [asstMsg none [notifyCall], toolMsg "200" "n1"]] ∧
    (chat bot0 client9 sink200 2 "hi" []).outcome = Outcome.ok (some "done") :=
  ⟨rfl, rfl, rfl, rfl⟩

lemma dispatchOne_ok_shape (sink : Sink) (tc : ToolCall) (m : Msg) (effs : List Effect)
    (h : dispatchOne sink tc = (Except.ok m, effs)) :
    m.role = "tool" ∧ m.tool_call_id = some tc.id := by
  unfold dispatchOne at h
  cases hj : jsonLoads tc.arguments with
  | error e => simp [hj] at h
  | ok kvs =>
    cases hg : globalsGet tc.name with
    | none => simp [hj, hg] at h
    | some f =>
      cases hc : callPyFun sink f kvs with
      | error e => simp [hj, hg, hc] at h
      | ok r =>
        simp [hj, hg, hc] at h
        rcases h with ⟨h1, h2⟩
        rw [← h1]
        exact ⟨rfl, rfl⟩

lemma handle_ok_shape (sink : Sink) :
    ∀ tcs results effs, handle_tool_calls sink tcs = (Except.ok results, effs) →
      results.map Msg.tool_call_id = tcs.map (fun tc => some tc.id) ∧
      ∀ r ∈ results, r.role = "tool" := by
  intro tcs
  induction tcs with
  | nil =>
    intro results effs h
    unfold handle_tool_calls at h
    simp at h
    rcases h with ⟨h1, h2⟩
    subst h1
    simp
  | cons tc rest ih =>
    intro results effs h
    unfold handle_tool_calls at h
    cases hd : dispatchOne sink tc with
    | mk d deffs =>
      rw [hd] at h
      cases d with
      | error e => simp at h
      | ok m =>
        cases hr : handle_tool_calls sink rest with
        | mk r reffs =>
          rw [hr] at h
          cases r with
          | error e => simp at h
          | ok ms =>
            simp at h
            rcases h with ⟨h1, h2⟩
            obtain ⟨hrole, hid⟩ := dispatchOne_ok_shape sink tc m deffs hd
            obtain ⟨ih1, ih2⟩ := ih ms reffs hr
            subst h1
            constructor
            · simp [hid, ih1]
            · intro x hx
              rcases List.mem_cons.mp hx with hx | hx
              · rw [hx]; exact hrole
              · exact ih2 x hx

lemma chatLoop_sent_shape (client : Client) (sink : Sink) (fuel : Nat) (msgs : List Msg) :
    (chatLoop client sink fuel msgs).sent = [] ∨
    ∃ rest, (chatLoop client sink fuel msgs).sent = msgs :: rest := by
  cases fuel with
  | zero => exact Or.inl rfl
  | succ n =>
    unfold chatLoop
    by_cases hf : (client msgs).finish_reason = "tool_calls"
    · rw [if_pos hf]
      cases hh : handle_tool_calls sink (client msgs).tool_calls with
      | mk d effs =>
        cases d with
        | error e => exact Or.inr ⟨[], rfl⟩
        | ok results => exact Or.inr ⟨_, rfl⟩
    · rw [if_neg hf]
      exact Or.inr ⟨[], rfl⟩

lemma chatLoop_sentOk (client : Client) (sink : Sink) :
    ∀ fuel msgs, sentOk (chatLoop client sink fuel msgs).sent := by
  intro fuel
  induction fuel with
  | zero => intro msgs; exact trivial
  | succ n ih =>
    intro msgs
    unfold chatLoop
    by_cases hf : (client msgs).finish_reason = "tool_calls"
    · rw [if_pos hf]
      cases hh : handle_tool_calls sink (client msgs).tool_calls with
      | mk d effs =>
        cases d with
        | error e => exact trivial
        | ok results =>
          show sentOk (msgs ::
            (chatLoop client sink n
              (msgs ++ asstMsg (client msgs).content (client msgs).tool_calls :: results)).sent)
          rcases chatLoop_sent_shape client sink n
              (msgs ++ asstMsg (client msgs).content (client msgs).tool_calls :: results)
            with hs | ⟨rest, hs⟩
          · rw [hs]; exact trivial
          · rw [hs]
            obtain ⟨hids, hroles⟩ := handle_ok_shape sink (client msgs).tool_calls results effs hh
            refine ⟨⟨asstMsg (client msgs).content (client msgs).tool_calls, results, rfl,
              rfl, hroles, by simp [asstMsg, hids]⟩, ?_⟩
            rw [← hs]
            exact ih _
    · rw [if_neg hf]; exact trivial

/-- C2: every message list `chat` sends to the completion client satisfies
the Conversation invariant: each list sent after the first extends the
previous one with the assistant message that requested the tools followed
by exactly one tool-role result message per ToolCallRequest, in the order
the requests were listed, each echoing its request's `tool_call_id` —
all appended before the next model call. -/
theorem c2_conversation_invariant (st : BotState) (client : Client) (sink : Sink)
    (fuel : Nat) (message : String) (history : List Msg) :
    sentOk (chat st client sink fuel message history).sent :=
  chatLoop_sentOk client sink fuel (initialMsgs st message history)

lemma dispatchOne_fst_indep (tc : ToolCall) (h : tc.name ≠ "notify") (s1 s2 : Sink) :
    (dispatchOne s1 tc).fst = (dispatchOne s2 tc).fst := by
  unfold dispatchOne
  cases hj : jsonLoads tc.arguments with
  | error e => simp
  | ok kvs =>
    cases hg : globalsGet tc.name with
    | none => simp
    | some f =>
      cases f with
      | fnNotify =>
        rcases globalsGet_some_cases _ _ hg with ⟨_, hn⟩ | ⟨hf, _⟩ | ⟨hf, _⟩
        · exact absurd hn h
        · exact PyFun.noConfusion hf
        · exact PyFun.noConfusion hf
      | fnRecordUserDetails =>
        cases hb : bindRecordUserDetails kvs with
        | error e => simp [callPyFun, hb, Except.map]
        | ok v => simp [callPyFun, hb, Except.map, record_user_details]
      | fnRecordUnknownQuestion =>
        cases hb : bindRecordUnknownQuestion kvs with
        | error e => simp [callPyFun, hb, Except.map]
        | ok v => simp [callPyFun, hb, Except.map, record_unknown_question]

lemma handle_fst_indep (s1 s2 : Sink) :
    ∀ tcs, (∀ tc ∈ tcs, tc.name ≠ "notify") →
      (handle_tool_calls s1 tcs).fst = (handle_tool_calls s2 tcs).fst := by
  intro tcs
  induction tcs with
  | nil => intro _; rfl
  | cons tc rest ih =>
    intro hno
    have hfst := dispatchOne_fst_indep tc (hno tc (by simp)) s1 s2
    unfold handle_tool_calls
    cases hd1 : dispatchOne s1 tc with
    | mk d1 e1 =>
      cases hd2 : dispatchOne s2 tc with
      | mk d2 e2 =>
        have hd : d1 = d2 := by rw [hd1, hd2] at hfst; exact hfst
        subst hd
        cases d1 with
        | error e => rfl
        | ok m =>
          have hr := ih (fun tc' htc' => hno tc' (by simp [htc']))
          cases hr1 : handle_tool_calls s1 rest with
          | mk r1 f1 =>
            cases hr2 : handle_tool_calls s2 rest with
            | mk r2 f2 =>
              have hrr : r1 = r2 := by rw [hr1, hr2] at hr; exact hr
              subst hrr
              cases r1 with
              | error e => rfl
              | ok ms => rfl

lemma chatLoop_sink_indep (client : Client)
    (hc : ∀ ms, ∀ tc ∈ (client ms).tool_calls, tc.name ≠ "notify") (s1 s2 : Sink) :
    ∀ fuel msgs,
      (chatLoop client s1 fuel msgs).outcome = (chatLoop client s2 fuel msgs).outcome ∧
      (chatLoop client s1 fuel msgs).sent = (chatLoop client s2 fuel msgs).sent := by
  intro fuel
  induction fuel with
  | zero => intro msgs; exact ⟨rfl, rfl⟩
  | succ n ih =>
    intro msgs
    unfold chatLoop
    by_cases hf : (client msgs).finish_reason = "tool_calls"
    · rw [if_pos hf, if_pos hf]
      have hfst := handle_fst_indep s1 s2 (client msgs).tool_calls (hc msgs)
      cases hh1 : handle_tool_calls s1 (client msgs).tool_calls with
      | mk d1 e1 =>
        cases hh2 : handle_tool_calls s2 (client msgs).tool_calls with
        | mk d2 e2 =>
          have hd : d1 = d2 := by rw [hh1, hh2] at hfst; exact hfst
          subst hd
          cases d1 with
          | error e => exact ⟨rfl, rfl⟩
          | ok results =>
            obtain ⟨ho, hs⟩ :=
              ih (msgs ++ asstMsg (client msgs).content (client msgs).tool_calls :: results)
            exact ⟨ho, by simp [Trace.consStep, hs]⟩
    · rw [if_neg hf, if_neg hf]; exact ⟨rfl, rfl⟩

/-- C7: the notification send never raises: for every delivery outcome it
returns the status code as a plain value; when delivery is not ok it
prints a diagnostic containing the status code and the response body; and
for any turn whose responses never request the `notify` callable itself,
the result of `chat` is independent of the sink's responses — in
particular an HTTP 500 delivery leaves the turn's return value
unchanged. -/
theorem c7_notification_failure_invisible :
    (∀ (sink : Sink) (message : String),
      (notify sink message).fst = (sink (notifyText message)).status) ∧
    (∀ (sink : Sink) (message : String),
      (sink (notifyText message)).isOk = false →
        Effect.printed ("Status Code: " ++ toString (sink (notifyText message)).status)
            ∈ (notify sink message).snd ∧
        Effect.printed ("Response: " ++ (sink (notifyText message)).body)
            ∈ (notify sink message).snd) ∧
    (∀ client : Client,
      (∀ ms, ∀ tc ∈ (client ms).tool_calls, tc.name ≠ "notify") →
      ∀ (s1 s2 : Sink) (st : BotState) (fuel : Nat) (message : String) (history : List Msg),
        (chat st client s1 fuel message history).outcome =
          (chat st client s2 fuel message history).outcome) := by
  refine ⟨fun sink message => rfl, fun sink message h => ?_,
    fun client hc s1 s2 st fuel message history => ?_⟩
  · simp [notify, h]
  · exact (chatLoop_sink_indep client hc s1 s2 fuel (initialMsgs st message history)).1

/-- C7 witness: a sink answering 500 yields the status code 500 as return
value, logs it, and leaves the outcome of a `record_user_details` turn
identical to the one under a sink answering 200. -/
theorem c7_notification_failure_invisible_witness :
    (notify sink500 "hi").fst = (sink500 (notifyText "hi")).status ∧
    Effect.printed ("Status Code: " ++ toString (sink500 (notifyText "hi")).status)
        ∈ (notify sink500 "hi").snd ∧
    (chat bot0 client6 sink500 2 "hi" []).outcome =
      (chat bot0 client6 sink200 2 "hi" []).outcome := by
  refine ⟨c7_notification_failure_invisible.1 sink500 "hi",
    (c7_notification_failure_invisible.2.1 sink500 "hi" (by decide)).1,
    c7_notification_failure_invisible.2.2 client6 ?_ sink500 sink200 bot0 2 "hi" []⟩
  intro ms tc htc
  by_cases hlen : (ms.length == 2) = true
  · simp [client6, hlen] at htc
    subst htc
    decide
  · simp [client6, hlen] at htc

/-- C8: a missing knowledge source file does not abort initialization:
the corresponding field is set to its placeholder string (a present file's
text is taken verbatim), and the engine still completes a turn
afterwards. -/
theorem c8_missing_knowledge_placeholders (pdfText summaryText : Option String) :
    (pdfText = none →
      (initBot pdfText summaryText).fst.linkedin =
        "Error: LinkedIn PDF file not found. Check file path.") ∧
    (summaryText = none →
      (initBot pdfText summaryText).fst.summary =
        "Error: Summary file not found. Check file path.") ∧
    (∀ s, pdfText = some s → (initBot pdfText summaryText).fst.linkedin = s) ∧
    (∀ s, summaryText = some s → (initBot pdfText summaryText).fst.summary = s) ∧
    (∀ (sink : Sink) (message : String) (history : List Msg),
      (chat (initBot pdfText summaryText).fst clientFinal sink 1 message history).outcome =
        Outcome.ok (some "done")) := by
  cases pdfText <;> cases summaryText <;>
    refine ⟨?_, ?_, ?_, ?_, fun sink message history => rfl⟩ <;> simp [initBot]

/-- C8 witness: both loaders missing. -/
theorem c8_missing_knowledge_placeholders_witness :
    (initBot none none).fst.linkedin = "Error: LinkedIn PDF file not found. Check file path." ∧
    (initBot none none).fst.summary = "Error: Summary file not found. Check file path." ∧
    (chat (initBot none none).fst clientFinal sink200 1 "hi" []).outcome =
      Outcome.ok (some "done") :=
  ⟨(c8_missing_knowledge_placeholders none none).1 rfl,
   (c8_missing_knowledge_placeholders none none).2.1 rfl,
   (c8_missing_knowledge_placeholders none none).2.2.2.2 sink200 "hi" []⟩

lemma chatHeapLoop_frame (client : Client) (sink : Sink) :
    ∀ fuel (store : Store) (msgsRef r : Nat), r ≠ msgsRef →
      ((chatHeapLoop client sink fuel store msgsRef).fst)[r]? = store[r]? := by
  intro fuel
  induction fuel with
  | zero => intro store msgsRef r h; rfl
  | succ n ih =>
    intro store msgsRef r h
    simp only [chatHeapLoop]
    split
    · split
      · rfl
      · rw [ih _ msgsRef r h]
        exact List.getElem?_set_ne (Ne.symm h)
    · rfl

/-- C10: `chat` never mutates the caller-supplied history list.  In the
store model of Python lists, `[system] + history + [user]` allocates a
fresh cell (at index `store.length`) and every `append`/`extend` of the
loop updates only that cell, so the history cell is unchanged after the
call. -/
theorem c10_history_not_mutated (st : BotState) (client : Client) (sink : Sink)
    (fuel : Nat) (message : String) (store : Store) (histRef : Nat)
    (h : histRef < store.length) :
    ((chatHeap st client sink fuel message store histRef).fst)[histRef]? =
      store[histRef]? := by
  simp only [chatHeap]
  rw [chatHeapLoop_frame client sink fuel _ store.length histRef (Nat.ne_of_lt h)]
  exact List.getElem?_append_left h

/-- C10 witness: a one-element store holding the history. -/
theorem c10_history_not_mutated_witness :
    0 < ([[userMsg "old"]] : Store).length ∧
    ((chatHeap bot0 clientFinal sink200 1 "hi" [[userMsg "old"]] 0).fst)[0]? =
      ([[userMsg "old"]] : Store)[0]? :=
  ⟨by decide,
   c10_history_not_mutated bot0 clientFinal sink200 1 "hi" [[userMsg "old"]] 0 (by decide)⟩
